import Mathlib

/-!
# Verification of the DCGAN model-construction code (`notebooks/week4/model.py`)

The repository builds a TensorFlow computation graph for a DCGAN: a
generator (latent vector → image), a discriminator (image → scalar logit),
adversarial losses, and a partition of the trainable variables into a
generator group and a discriminator group.

The source file `model.py` is shallowly embedded here along three
complementary projections of the same code:

* a *graph-construction* embedding (`GraphState`, `generatorGraph`,
  `discriminatorGraph`, `buildModelGraph`) that records, in program order,
  which trainable variables each call creates or binds (the
  `tf.variable_scope(..., reuse=...)` discipline), which batch-normalization
  invocations happen and with which `train` flag, and every tensor shape
  that the code declares explicitly (placeholders, `tf.reshape` target
  shapes, `deconv2d` output shapes);
* a *static shape-inference* embedding (`SDim`, `generatorShapeInfer`) that propagates
  possibly-unknown dimensions the way TensorFlow's graph-construction time
  shape inference does, used for claims about batch-dimension pinning and
  construction-time shape errors;
* a *numeric* embedding over `ℝ` (`generatorNum`, `discriminatorNum`,
  `d_loss`, `g_loss`) in which tensors are functions from `Fin`-indexed
  coordinates to reals, used for value-range and loss claims.

The helper module `ops.py` (`linear`, `conv2d`, `deconv2d`, `batch_norm`,
`lrelu`, `relu`) is imported by `model.py` but is not part of the sources
available here; its operations are modelled from the specification's
description of them (each such definition carries a doc comment starting
`Modelled from the spec:`).
-/

/-! ## Hyperparameters (`DCGAN.__init__`) -/

/-- The hyperparameters stored by `DCGAN.__init__` (`model.py` lines 22-30).
`learning_rate` is a float consumed only by the optimizers and is omitted:
no claim concerns it. -/
structure HP where
  batch_size : Nat
  image_size : Nat
  output_size : Nat
  dim_color : Nat
  dim_z : Nat
  dim_df : Nat
  dim_gf : Nat

/-- The default hyperparameters of `DCGAN.__init__`
(batch_size=100, image_size=64, output_size=64, dim_color=3, dim_z=100,
dim_df=64, dim_gf=64). -/
def HP.default : HP :=
  { batch_size := 100, image_size := 64, output_size := 64, dim_color := 3,
    dim_z := 100, dim_df := 64, dim_gf := 64 }

/-! ## Substring matching

`build_model` partitions `tf.trainable_variables()` by Python's
`'discriminator' in var.name` / `'generator' in var.name` substring tests
(`model.py` lines 64-66).  `pfxChars`/`hasSub` are executable Boolean
versions of "is a prefix of" and "occurs as a contiguous substring". -/

/-- Boolean test that the first character list is a prefix of the second. -/
def pfxChars : List Char → List Char → Bool
  | [], _ => true
  | _ :: _, [] => false
  | a :: as, b :: bs => a == b && pfxChars as bs

/-- Boolean test that `sub` occurs as a contiguous sublist of the second list. -/
def hasSub (sub : List Char) : List Char → Bool
  | [] => pfxChars sub []
  | c :: rest => pfxChars sub (c :: rest) || hasSub sub rest

/-- Python's `sub in s` substring test on strings. -/
def strContains (s sub : String) : Bool :=
  hasSub sub.data s.data

/-! ## Declared dimensions and the graph-construction state -/

/-- A dimension as it appears in a shape *written in the source code*:
a concrete size, TensorFlow's `None` (unconstrained placeholder dimension),
or `-1` (a dimension `tf.reshape` infers from the element count). -/
inductive DDim where
  | fixed (n : Nat)
  | unconstrained
  | inferred
deriving DecidableEq, Repr

/-- State accumulated while the Python code builds the TensorFlow graph:
the trainable variables created so far (fully-qualified names, in creation
order) and the batch-normalization invocations performed so far (scoped
layer name paired with the `train` flag passed to the layer).  Every
variable name in `model.py` is a string literal, so this trace does not
depend on the hyperparameters; the hyperparameter-dependent declared shapes
are the separate projection `buildModelShapeDecls` below. -/
structure GraphState where
  vars : List String
  bnCalls : List (String × Bool)
deriving DecidableEq, Repr

/-- The empty graph, before `DCGAN.__init__` runs. -/
def GraphState.empty : GraphState := ⟨[], []⟩

/-- `tf.get_variable` under `tf.variable_scope(..., reuse=reuse)`:
with `reuse=False` the variable must not exist yet and is created;
with `reuse=True` the variable must already exist and is bound unchanged.
Violating either is a graph-construction error. -/
def getVar (st : GraphState) (fullName : String) (reuse : Bool) :
    Except String GraphState :=
  if reuse then
    if fullName ∈ st.vars then .ok st
    else .error ("reuse of nonexistent variable " ++ fullName)
  else
    if fullName ∈ st.vars then .error ("variable already exists " ++ fullName)
    else .ok { st with vars := st.vars ++ [fullName] }

/-- Modelled from the spec: `ops.linear` (missing from the sources) is an
affine/linear projection layer; per the spec's data model its parameters are
a weight matrix and a bias owned by the enclosing naming scope. -/
def linearVars (st : GraphState) (scope nm : String) (reuse : Bool) :
    Except String GraphState := do
  let st ← getVar st (scope ++ "/" ++ nm ++ "/w") reuse
  getVar st (scope ++ "/" ++ nm ++ "/b") reuse

/-- Modelled from the spec: `ops.conv2d` (missing from the sources) is a
convolution layer with weight and bias parameters under the enclosing scope. -/
def conv2dVars (st : GraphState) (scope nm : String) (reuse : Bool) :
    Except String GraphState := do
  let st ← getVar st (scope ++ "/" ++ nm ++ "/w") reuse
  getVar st (scope ++ "/" ++ nm ++ "/b") reuse

/-- Modelled from the spec: `ops.deconv2d` (missing from the sources) is a
transposed-convolution layer; it takes the full output shape as an explicit
argument (visible at the `model.py` call sites) and owns weight and bias
parameters under the enclosing scope. -/
def deconv2dVars (st : GraphState) (scope nm : String) (reuse : Bool) :
    Except String GraphState := do
  let st ← getVar st (scope ++ "/" ++ nm ++ "/w") reuse
  getVar st (scope ++ "/" ++ nm ++ "/b") reuse

/-- Modelled from the spec: `ops.batch_norm` (missing from the sources) is a
batch-normalization layer whose trainable parameters are a scale and a shift
under the enclosing scope, and whose `train` argument selects batch
statistics (`train=True`) versus accumulated population statistics
(`train=False`). -/
def batchNormApply (st : GraphState) (scope bnName : String)
    (reuse train : Bool) : Except String GraphState := do
  let st ← getVar st (scope ++ "/" ++ bnName ++ "/beta") reuse
  let st ← getVar st (scope ++ "/" ++ bnName ++ "/gamma") reuse
  .ok { st with bnCalls := st.bnCalls ++ [(scope ++ "/" ++ bnName, train)] }

/-- Modelled from the spec: the default of `ops.batch_norm`'s `train`
argument.  The spec's construction sequence scores real images with the
discriminator as the *training* pass, and the `model.py` discriminator call
sites (lines 144-146) pass no `train` argument at all, so the default must
be training mode (`true`) for that pass to use batch statistics as the spec
requires. -/
def batchNormTrainDefault : Bool := true

/-- `DCGAN.generator` (`model.py` lines 88-126), variable/batch-norm trace
projection.  `train` is `False` when `reuse` is `True` and `True` otherwise
(lines 99-102); every layer lives under `tf.variable_scope('generator',
reuse=reuse)`; the four batch normalizations all receive `train=train`; the
last deconv layer has no batch normalization. -/
def generatorGraph (st : GraphState) (reuse : Bool) :
    Except String GraphState := do
  let train := if reuse then false else true
  let st ← linearVars st "generator" "g_h1" reuse
  let st ← batchNormApply st "generator" "g_bn1" reuse train
  let st ← deconv2dVars st "generator" "g_h2" reuse
  let st ← batchNormApply st "generator" "g_bn2" reuse train
  let st ← deconv2dVars st "generator" "g_h3" reuse
  let st ← batchNormApply st "generator" "g_bn3" reuse train
  let st ← deconv2dVars st "generator" "g_h4" reuse
  let st ← batchNormApply st "generator" "g_bn4" reuse train
  deconv2dVars st "generator" "g_out" reuse

/-- `DCGAN.discriminator` (`model.py` lines 129-152), variable/batch-norm
trace projection.  Every layer lives under `tf.variable_scope(
'discriminator', reuse=reuse)`; the first convolution has no batch
normalization; the three batch-normalization call sites (lines 144-146)
pass *no* `train` argument, so each receives `batchNormTrainDefault`. -/
def discriminatorGraph (st : GraphState) (reuse : Bool) :
    Except String GraphState := do
  let st ← conv2dVars st "discriminator" "d_h1" reuse
  let st ← conv2dVars st "discriminator" "d_h2" reuse
  let st ← batchNormApply st "discriminator" "d_bn1" reuse batchNormTrainDefault
  let st ← conv2dVars st "discriminator" "d_h3" reuse
  let st ← batchNormApply st "discriminator" "d_bn2" reuse batchNormTrainDefault
  let st ← conv2dVars st "discriminator" "d_h4" reuse
  let st ← batchNormApply st "discriminator" "d_bn3" reuse batchNormTrainDefault
  linearVars st "discriminator" "d_out" reuse

/-- `DCGAN.build_model` (`model.py` lines 47-55), variable/batch-norm trace
projection: generator on `z` (fresh), discriminator on real images (fresh),
discriminator on fake images with `reuse=True`, generator with `reuse=True`
for sampling. -/
def buildModelGraph : Except String GraphState := do
  let st ← generatorGraph GraphState.empty false
  let st ← discriminatorGraph st false
  let st ← discriminatorGraph st true
  generatorGraph st true

/-- `DCGAN.__init__` and the shapes that the `build_model` call tree writes
out explicitly, in program order (hyperparameter-dependent projection of the
same lines): the two placeholder shapes of `__init__` (lines 33-34, with
`z`'s leading dimension `None`), then, per generator invocation, the
`tf.reshape` target `[-1, s16, s16, dim_gf*8]` (line 112) and the four
`deconv2d` output shapes `[batch_size, ·, ·, ·]` (lines 115-124), and, per
discriminator invocation, the flatten target `[batch_size, -1]` (line 149).
`build_model` runs the generator, the discriminator twice, then the
generator again. -/
def generatorShapeDecls (hp : HP) : List (String × List DDim) :=
  let s := hp.output_size
  [("generator/reshape",
    [DDim.inferred, DDim.fixed (s / 16), DDim.fixed (s / 16),
     DDim.fixed (hp.dim_gf * 8)]),
   ("generator/g_h2",
    [DDim.fixed hp.batch_size, DDim.fixed (s / 8), DDim.fixed (s / 8),
     DDim.fixed (hp.dim_gf * 4)]),
   ("generator/g_h3",
    [DDim.fixed hp.batch_size, DDim.fixed (s / 4), DDim.fixed (s / 4),
     DDim.fixed (hp.dim_gf * 2)]),
   ("generator/g_h4",
    [DDim.fixed hp.batch_size, DDim.fixed (s / 2), DDim.fixed (s / 2),
     DDim.fixed hp.dim_gf]),
   ("generator/g_out",
    [DDim.fixed hp.batch_size, DDim.fixed s, DDim.fixed s,
     DDim.fixed hp.dim_color])]

/-- The explicit shape declared by the discriminator (`model.py` line 149). -/
def discriminatorShapeDecls (hp : HP) : List (String × List DDim) :=
  [("discriminator/reshape", [DDim.fixed hp.batch_size, DDim.inferred])]

/-- The placeholder shapes of `DCGAN.__init__` (`model.py` lines 33-34). -/
def placeholderShapeDecls (hp : HP) : List (String × List DDim) :=
  [("images",
    [DDim.fixed hp.batch_size, DDim.fixed hp.image_size,
     DDim.fixed hp.image_size, DDim.fixed hp.dim_color]),
   ("input_for_generator", [DDim.unconstrained, DDim.fixed hp.dim_z])]

/-- All shapes declared in the graph after `__init__` and `build_model`,
in program order. -/
def buildModelShapeDecls (hp : HP) : List (String × List DDim) :=
  placeholderShapeDecls hp ++ generatorShapeDecls hp ++
    discriminatorShapeDecls hp ++ discriminatorShapeDecls hp ++
    generatorShapeDecls hp

/-- `build_model` line 64: the full list of trainable variables. -/
def t_vars (st : GraphState) : List String := st.vars

/-- `build_model` line 65: `[var for var in t_vars if 'discriminator' in var.name]`. -/
def d_vars (st : GraphState) : List String :=
  (t_vars st).filter (fun v => strContains v "discriminator")

/-- `build_model` line 66: `[var for var in t_vars if 'generator' in var.name]`. -/
def g_vars (st : GraphState) : List String :=
  (t_vars st).filter (fun v => strContains v "generator")

/-! ## Concrete traces

The variable names in `model.py` are string literals, so the trace of
`build_model` is one concrete value, independent of the hyperparameters. -/

/-- The generator's trainable variables, in creation order. -/
def genVarNames : List String :=
  ["generator/g_h1/w", "generator/g_h1/b", "generator/g_bn1/beta", "generator/g_bn1/gamma",
   "generator/g_h2/w", "generator/g_h2/b", "generator/g_bn2/beta", "generator/g_bn2/gamma",
   "generator/g_h3/w", "generator/g_h3/b", "generator/g_bn3/beta", "generator/g_bn3/gamma",
   "generator/g_h4/w", "generator/g_h4/b", "generator/g_bn4/beta", "generator/g_bn4/gamma",
   "generator/g_out/w", "generator/g_out/b"]

/-- The discriminator's trainable variables, in creation order. -/
def discVarNames : List String :=
  ["discriminator/d_h1/w", "discriminator/d_h1/b", "discriminator/d_h2/w", "discriminator/d_h2/b",
   "discriminator/d_bn1/beta", "discriminator/d_bn1/gamma", "discriminator/d_h3/w", "discriminator/d_h3/b",
   "discriminator/d_bn2/beta", "discriminator/d_bn2/gamma", "discriminator/d_h4/w", "discriminator/d_h4/b",
   "discriminator/d_bn3/beta", "discriminator/d_bn3/gamma", "discriminator/d_out/w", "discriminator/d_out/b"]

/-- The batch-norm invocations one generator call makes, each with the
`train` flag the generator passes. -/
def genBnTrace (train : Bool) : List (String × Bool) :=
  [("generator/g_bn1", train), ("generator/g_bn2", train),
   ("generator/g_bn3", train), ("generator/g_bn4", train)]

/-- The batch-norm invocations one discriminator call makes; the call sites
pass no `train` argument, so each uses `batchNormTrainDefault`. -/
def discBnTrace : List (String × Bool) :=
  [("discriminator/d_bn1", batchNormTrainDefault),
   ("discriminator/d_bn2", batchNormTrainDefault),
   ("discriminator/d_bn3", batchNormTrainDefault)]

/-- Graph state after the first (fresh) generator invocation. -/
def gState1 : GraphState := ⟨genVarNames, genBnTrace true⟩

/-- Graph state after one fresh discriminator invocation on the empty graph. -/
def dState1 : GraphState := ⟨discVarNames, discBnTrace⟩

/-- Graph state after a fresh discriminator invocation followed by a
`reuse=True` one. -/
def dState2 : GraphState := ⟨discVarNames, discBnTrace ++ discBnTrace⟩

/-- The graph state `build_model` ends in. -/
def buildState : GraphState :=
  ⟨genVarNames ++ discVarNames,
   genBnTrace true ++ discBnTrace ++ discBnTrace ++ genBnTrace false⟩

instance {α : Type} [DecidableEq α] : DecidableEq (Except String α) := fun a b =>
  match a, b with
  | .ok x, .ok y =>
      if h : x = y then .isTrue (by rw [h])
      else .isFalse (by intro hc; cases hc; exact h rfl)
  | .error x, .error y =>
      if h : x = y then .isTrue (by rw [h])
      else .isFalse (by intro hc; cases hc; exact h rfl)
  | .ok _, .error _ => .isFalse (by intro hc; cases hc)
  | .error _, .ok _ => .isFalse (by intro hc; cases hc)

/-! ## Static shape inference

TensorFlow propagates possibly-unknown dimensions while the graph is being
built and raises a construction-time error when two known dimensions that
must agree differ.  Only the generator pipeline needs this projection: its
latent input has an unconstrained leading dimension (placeholder shape
`[None, dim_z]`) while every `deconv2d` call declares `batch_size` as the
leading output dimension. -/

/-- A statically known or unknown dimension (`none` = TensorFlow's `?`). -/
def SDim := Option Nat
deriving DecidableEq, Repr

/-- A rank-4 static shape as it flows through the generator: the batch
dimension may be unknown, the spatial and channel dimensions are known. -/
structure Shape4 where
  batch : SDim
  height : Nat
  width : Nat
  channels : Nat
deriving DecidableEq, Repr

/-- `tf.reshape(h, [-1, a, b, c])` on an input of static shape
`[n, f]`: the leading dimension is inferred from the element count (left
unknown when `n` is unknown); a zero target volume or a non-divisible
element count is a construction error. -/
def reshapeInfer (n : SDim) (f a b c : Nat) : Except String Shape4 :=
  match n with
  | none => .ok ⟨none, a, b, c⟩
  | some k =>
      if a * b * c = 0 then .error "reshape: cannot infer dimension"
      else if a * b * c ∣ k * f then .ok ⟨some (k * f / (a * b * c)), a, b, c⟩
      else .error "reshape: element count mismatch"

/-- Modelled from the spec: static shape inference of `ops.deconv2d`
(missing from the sources) — a stride-2 transposed convolution that doubles
the spatial resolution and takes its full output shape as an explicit
argument.  Construction-time inference merges the input's batch dimension
with the declared output batch dimension (a known-known mismatch is a
construction error) and checks the declared spatial dimensions against the
doubled input dimensions. -/
def deconv2dShapeInfer (x : Shape4) (outB outH outW outC : Nat) :
    Except String Shape4 :=
  match x.batch with
  | some k =>
      if k = outB then
        if outH = 2 * x.height ∧ outW = 2 * x.width then .ok ⟨some outB, outH, outW, outC⟩
        else .error "deconv2d: spatial shape mismatch"
      else .error "deconv2d: batch dimension mismatch"
  | none =>
      if outH = 2 * x.height ∧ outW = 2 * x.width then .ok ⟨some outB, outH, outW, outC⟩
      else .error "deconv2d: spatial shape mismatch"

/-- Static shape inference through `DCGAN.generator` (`model.py` lines
104-126) for a latent input of static shape `[n, dim_z]`: the affine
projection `g_h1` yields `[n, s16*s16*dim_gf*8]`, the reshape targets
`[-1, s16, s16, dim_gf*8]`, and the four `deconv2d` stages declare
`[batch_size, s8|s4|s2|s, ·, ·]`.  Batch normalization, `relu` and `tanh`
preserve shapes and are omitted. -/
def generatorShapeInfer (hp : HP) (n : SDim) : Except String Shape4 := do
  let s := hp.output_size
  let h1 ← reshapeInfer n (s / 16 * (s / 16) * hp.dim_gf * 8)
    (s / 16) (s / 16) (hp.dim_gf * 8)
  let h2 ← deconv2dShapeInfer h1 hp.batch_size (s / 8) (s / 8) (hp.dim_gf * 4)
  let h3 ← deconv2dShapeInfer h2 hp.batch_size (s / 4) (s / 4) (hp.dim_gf * 2)
  let h4 ← deconv2dShapeInfer h3 hp.batch_size (s / 2) (s / 2) hp.dim_gf
  deconv2dShapeInfer h4 hp.batch_size s s hp.dim_color

/-! ## Numeric embedding

Tensors are real-valued functions of `Fin`-indexed coordinates, so a
tensor's shape is its type.  The layer internals of `ops.py` are missing
from the sources; following the spec, a (transposed) convolution and the
affine projection are modelled as general affine maps of the declared
output shape (the spec fixes the shapes and the affine nature of these
layers, not their kernel sparsity pattern), batch normalization normalizes
with batch statistics in training mode and stored population statistics
otherwise, and the activations are the standard pointwise functions. -/

noncomputable section

/-- A rank-4 tensor of shape `(b, h, w, c)`. -/
def Tensor4 (b h w c : Nat) : Type := Fin b → Fin h → Fin w → Fin c → ℝ

/-- A rank-2 tensor (matrix) of shape `(b, n)`. -/
def Mat (b n : Nat) : Type := Fin b → Fin n → ℝ

/-- Modelled from the spec: `ops.relu`, the standard rectifying activation. -/
def relu (x : ℝ) : ℝ := max x 0

/-- Modelled from the spec: `ops.lrelu`, leaky rectification — positive
values pass unchanged, negative values are scaled by `leak` (for
`0 ≤ leak ≤ 1`). -/
def lrelu (leak x : ℝ) : ℝ := max x (leak * x)

/-- The logistic function `σ(x) = 1 / (1 + e^(-x))`. -/
def sigmoid (x : ℝ) : ℝ := (1 + Real.exp (-x))⁻¹

/-- `tf.nn.sigmoid_cross_entropy_with_logits(logits=x, targets=z)` in its
numerically-stable closed form `max(x, 0) - x*z + log(1 + exp(-|x|))`,
which TensorFlow documents to equal
`z * -log(sigmoid(x)) + (1-z) * -log(1 - sigmoid(x))`. -/
def sigmoidCrossEntropyWithLogits (x z : ℝ) : ℝ :=
  max x 0 - x * z + Real.log (1 + Real.exp (-|x|))

/-- The textbook cross-entropy of a Bernoulli target `z` against the
sigmoid of a logit `x` (the spec's "cross-entropy term"). -/
def crossEntropy (x z : ℝ) : ℝ :=
  -(z * Real.log (sigmoid x) + (1 - z) * Real.log (1 - sigmoid x))

/-- `tf.reduce_mean` over a rank-1 tensor. -/
def reduceMean {n : Nat} (v : Fin n → ℝ) : ℝ := (∑ i, v i) / n

/-- `tf.ones_like` on a rank-1 tensor. -/
def onesLike {n : Nat} (_ : Fin n → ℝ) : Fin n → ℝ := fun _ => 1

/-- `tf.zeros_like` on a rank-1 tensor. -/
def zerosLike {n : Nat} (_ : Fin n → ℝ) : Fin n → ℝ := fun _ => 0

/-- `build_model` line 58: mean sigmoid cross-entropy of the real-image
logits against `tf.ones_like`. -/
def d_loss_real {n : Nat} (logits_real : Fin n → ℝ) : ℝ :=
  reduceMean (fun i => sigmoidCrossEntropyWithLogits (logits_real i) (onesLike logits_real i))

/-- `build_model` line 59: mean sigmoid cross-entropy of the fake-image
logits against `tf.zeros_like`. -/
def d_loss_fake {n : Nat} (logits_fake : Fin n → ℝ) : ℝ :=
  reduceMean (fun i => sigmoidCrossEntropyWithLogits (logits_fake i) (zerosLike logits_fake i))

/-- `build_model` line 60: the discriminator loss. -/
def d_loss {n : Nat} (logits_real logits_fake : Fin n → ℝ) : ℝ :=
  d_loss_real logits_real + d_loss_fake logits_fake

/-- `build_model` line 61: the generator loss — mean sigmoid cross-entropy
of the fake-image logits against `tf.ones_like`. -/
def g_loss {n : Nat} (logits_fake : Fin n → ℝ) : ℝ :=
  reduceMean (fun i => sigmoidCrossEntropyWithLogits (logits_fake i) (onesLike logits_fake i))

/-- The spec-side "mean cross-entropy of the logits against the constant
target `z`", written with the textbook cross-entropy. -/
def meanCrossEntropy {n : Nat} (logits : Fin n → ℝ) (z : ℝ) : ℝ :=
  reduceMean (fun i => crossEntropy (logits i) z)

/-- Row-major pairing of two indices: `(i, j) ↦ i * b + j`. -/
def mulIdx {a b : Nat} (i : Fin a) (j : Fin b) : Fin (a * b) :=
  ⟨i.val * b + j.val, by
    have h1 : i.val * b + j.val < (i.val + 1) * b := by
      have := j.isLt; rw [Nat.succ_mul]; omega
    exact Nat.lt_of_lt_of_le h1 (Nat.mul_le_mul_right b i.isLt)⟩

/-- Split a row-major combined index into its two components. -/
def splitIdx {a b : Nat} (n : Fin (a * b)) : Fin a × Fin b :=
  have hb : 0 < b := by
    rcases Nat.eq_zero_or_pos b with h | h
    · exact absurd n.isLt (by simp [h])
    · exact h
  (⟨n.val / b, by
      have h2 : n.val < b * a :=
        Nat.lt_of_lt_of_le n.isLt (Nat.le_of_eq (Nat.mul_comm a b))
      exact Nat.div_lt_of_lt_mul h2⟩,
   ⟨n.val % b, Nat.mod_lt _ hb⟩)

/-- The spatial sizes the generator computes (`model.py` line 108,
`s2, s4, s8, s16 = s/2, s/4, s/8, s/16`) with Python-2 truncating integer
division. -/
def genSpatialSizes (s : Nat) : Nat × Nat × Nat × Nat :=
  (s / 2, s / 4, s / 8, s / 16)

/-- The length `s16*s16*dim_gf*8` of the flat projection `g_h1`
(`model.py` line 111); the grouping of the (associative) product is chosen
to match row-major index pairing. -/
def genProjLen (hp : HP) : Nat :=
  hp.output_size / 16 * (hp.output_size / 16 * (hp.dim_gf * 8))

/-- Parameters of one batch-normalization layer over `c` channels: scale,
shift, stored population statistics, and the stabilizing epsilon. -/
structure BNParams (c : Nat) where
  gamma : Fin c → ℝ
  beta : Fin c → ℝ
  popMean : Fin c → ℝ
  popVar : Fin c → ℝ
  eps : ℝ

/-- Modelled from the spec: numeric batch normalization.  In training mode
(`train = true`) each channel is normalized by the mean and variance of the
current batch (over batch and spatial axes); in non-training mode the
stored population statistics are used instead.  The result is scaled by
`gamma` and shifted by `beta`. -/
def batchNormNum {b h w c : Nat} (train : Bool) (P : BNParams c)
    (x : Tensor4 b h w c) : Tensor4 b h w c :=
  let m : Fin c → ℝ := fun k =>
    if train then (∑ i, ∑ p, ∑ q, x i p q k) / (b * h * w : Nat) else P.popMean k
  let v : Fin c → ℝ := fun k =>
    if train then (∑ i, ∑ p, ∑ q, (x i p q k - m k) ^ 2) / (b * h * w : Nat)
    else P.popVar k
  fun i p q k => P.gamma k * ((x i p q k - m k) / Real.sqrt (v k + P.eps)) + P.beta k

/-- Modelled from the spec: numeric `ops.linear`, the affine projection
`x ↦ x · W + bias`. -/
def linearNum {b n m : Nat} (x : Mat b n) (W : Fin n → Fin m → ℝ)
    (bias : Fin m → ℝ) : Mat b m :=
  fun i j => (∑ k, x i k * W k j) + bias j

/-- Modelled from the spec: the discriminator's final affine projection,
producing one scalar per sample (shape `(batch,)`, spec §4.2). -/
def linearScalarNum {b n : Nat} (x : Mat b n) (W : Fin n → ℝ) (bias : ℝ) :
    Fin b → ℝ :=
  fun i => (∑ k, x i k * W k) + bias

/-- Modelled from the spec: numeric `ops.conv2d`, a stride-2 convolution
halving the spatial resolution, modelled as a general affine map onto the
output shape. -/
def conv2dNum {b h w c : Nat} (cOut : Nat)
    (W : Fin (h / 2) → Fin (w / 2) → Fin cOut → Fin h → Fin w → Fin c → ℝ)
    (bias : Fin cOut → ℝ) (x : Tensor4 b h w c) :
    Tensor4 b (h / 2) (w / 2) cOut :=
  fun i p q k => (∑ ps, ∑ qs, ∑ cs, W p q k ps qs cs * x i ps qs cs) + bias k

/-- Modelled from the spec: numeric `ops.deconv2d`, a transposed
convolution onto the declared output shape, modelled as a general affine
map. -/
def deconv2dNum {b h w c : Nat} (hOut wOut cOut : Nat)
    (W : Fin hOut → Fin wOut → Fin cOut → Fin h → Fin w → Fin c → ℝ)
    (bias : Fin cOut → ℝ) (x : Tensor4 b h w c) :
    Tensor4 b hOut wOut cOut :=
  fun i p q k => (∑ ps, ∑ qs, ∑ cs, W p q k ps qs cs * x i ps qs cs) + bias k

/-- All parameters of the generator.  The field types carry the shape
arithmetic of `model.py` lines 107-124: the projection targets
`genProjLen`, and the four deconvolution stages go `(s/16)² × 8·dim_gf →
(s/8)² × 4·dim_gf → (s/4)² × 2·dim_gf → (s/2)² × dim_gf → s² × dim_color`. -/
structure GenParams (hp : HP) where
  w1 : Fin hp.dim_z → Fin (genProjLen hp) → ℝ
  b1 : Fin (genProjLen hp) → ℝ
  bn1 : BNParams (hp.dim_gf * 8)
  w2 : Fin (hp.output_size / 8) → Fin (hp.output_size / 8) → Fin (hp.dim_gf * 4) →
       Fin (hp.output_size / 16) → Fin (hp.output_size / 16) → Fin (hp.dim_gf * 8) → ℝ
  b2 : Fin (hp.dim_gf * 4) → ℝ
  bn2 : BNParams (hp.dim_gf * 4)
  w3 : Fin (hp.output_size / 4) → Fin (hp.output_size / 4) → Fin (hp.dim_gf * 2) →
       Fin (hp.output_size / 8) → Fin (hp.output_size / 8) → Fin (hp.dim_gf * 4) → ℝ
  b3 : Fin (hp.dim_gf * 2) → ℝ
  bn3 : BNParams (hp.dim_gf * 2)
  w4 : Fin (hp.output_size / 2) → Fin (hp.output_size / 2) → Fin hp.dim_gf →
       Fin (hp.output_size / 4) → Fin (hp.output_size / 4) → Fin (hp.dim_gf * 2) → ℝ
  b4 : Fin hp.dim_gf → ℝ
  bn4 : BNParams hp.dim_gf
  w5 : Fin hp.output_size → Fin hp.output_size → Fin hp.dim_color →
       Fin (hp.output_size / 2) → Fin (hp.output_size / 2) → Fin hp.dim_gf → ℝ
  b5 : Fin hp.dim_color → ℝ

/-- `DCGAN.generator` (`model.py` lines 88-124) up to, but not including,
the final `tf.nn.tanh`: projection `g_h1`, reshape, and the four
deconvolution stages, the first three followed by batch normalization (with
`train = not reuse`) and `relu`; the last deconv layer has no batch
normalization. -/
def genPreTanh (hp : HP) (reuse : Bool) (P : GenParams hp)
    (z : Mat hp.batch_size hp.dim_z) :
    Tensor4 hp.batch_size hp.output_size hp.output_size hp.dim_color :=
  let train := if reuse then false else true
  let h1l : Mat hp.batch_size (genProjLen hp) := linearNum z P.w1 P.b1
  let h1r : Tensor4 hp.batch_size (hp.output_size / 16) (hp.output_size / 16)
      (hp.dim_gf * 8) := fun i p q k => h1l i (mulIdx p (mulIdx q k))
  let h1 := fun i p q k => relu (batchNormNum train P.bn1 h1r i p q k)
  let h2d := deconv2dNum (hp.output_size / 8) (hp.output_size / 8)
    (hp.dim_gf * 4) P.w2 P.b2 h1
  let h2 := fun i p q k => relu (batchNormNum train P.bn2 h2d i p q k)
  let h3d := deconv2dNum (hp.output_size / 4) (hp.output_size / 4)
    (hp.dim_gf * 2) P.w3 P.b3 h2
  let h3 := fun i p q k => relu (batchNormNum train P.bn3 h3d i p q k)
  let h4d := deconv2dNum (hp.output_size / 2) (hp.output_size / 2)
    hp.dim_gf P.w4 P.b4 h3
  let h4 := fun i p q k => relu (batchNormNum train P.bn4 h4d i p q k)
  deconv2dNum hp.output_size hp.output_size hp.dim_color P.w5 P.b5 h4

/-- `DCGAN.generator`, numeric projection: `tf.nn.tanh` of the deconvolution
pipeline (`model.py` line 126). -/
def generatorNum (hp : HP) (reuse : Bool) (P : GenParams hp)
    (z : Mat hp.batch_size hp.dim_z) :
    Tensor4 hp.batch_size hp.output_size hp.output_size hp.dim_color :=
  fun i p q k => Real.tanh (genPreTanh hp reuse P z i p q k)

/-- The flattened length of the discriminator's last convolution output
(`tf.reshape(h4, [self.batch_size, -1])`, `model.py` line 149). -/
def discFlatLen (hp : HP) : Nat :=
  hp.image_size / 2 / 2 / 2 / 2 * (hp.image_size / 2 / 2 / 2 / 2 * (hp.dim_df * 8))

/-- All parameters of the discriminator: four convolution stages doubling
the channel depth `dim_df → 2·dim_df → 4·dim_df → 8·dim_df`, three
batch-normalization layers (the first convolution has none), the final
affine projection to one scalar, and the leak factor of `lrelu`. -/
structure DiscParams (hp : HP) where
  leak : ℝ
  w1 : Fin (hp.image_size / 2) → Fin (hp.image_size / 2) → Fin hp.dim_df →
       Fin hp.image_size → Fin hp.image_size → Fin hp.dim_color → ℝ
  b1 : Fin hp.dim_df → ℝ
  w2 : Fin (hp.image_size / 2 / 2) → Fin (hp.image_size / 2 / 2) → Fin (hp.dim_df * 2) →
       Fin (hp.image_size / 2) → Fin (hp.image_size / 2) → Fin hp.dim_df → ℝ
  b2 : Fin (hp.dim_df * 2) → ℝ
  bn1 : BNParams (hp.dim_df * 2)
  w3 : Fin (hp.image_size / 2 / 2 / 2) → Fin (hp.image_size / 2 / 2 / 2) → Fin (hp.dim_df * 4) →
       Fin (hp.image_size / 2 / 2) → Fin (hp.image_size / 2 / 2) → Fin (hp.dim_df * 2) → ℝ
  b3 : Fin (hp.dim_df * 4) → ℝ
  bn2 : BNParams (hp.dim_df * 4)
  w4 : Fin (hp.image_size / 2 / 2 / 2 / 2) → Fin (hp.image_size / 2 / 2 / 2 / 2) → Fin (hp.dim_df * 8) →
       Fin (hp.image_size / 2 / 2 / 2) → Fin (hp.image_size / 2 / 2 / 2) → Fin (hp.dim_df * 4) → ℝ
  b4 : Fin (hp.dim_df * 8) → ℝ
  bn3 : BNParams (hp.dim_df * 8)
  wOut : Fin (discFlatLen hp) → ℝ
  bOut : ℝ

/-- `DCGAN.discriminator` (`model.py` lines 140-149) up to the final affine
projection: four stride-2 convolutions with leaky rectification, batch
normalization on all but the first (invoked with the default `train` flag —
the call sites pass none), and the flatten to `[batch_size, -1]`. -/
def discFlat (hp : HP) (P : DiscParams hp)
    (images : Tensor4 hp.batch_size hp.image_size hp.image_size hp.dim_color) :
    Mat hp.batch_size (discFlatLen hp) :=
  let h1 := fun i p q k => lrelu P.leak (conv2dNum hp.dim_df P.w1 P.b1 images i p q k)
  let h2c := conv2dNum (hp.dim_df * 2) P.w2 P.b2 h1
  let h2 := fun i p q k =>
    lrelu P.leak (batchNormNum batchNormTrainDefault P.bn1 h2c i p q k)
  let h3c := conv2dNum (hp.dim_df * 4) P.w3 P.b3 h2
  let h3 := fun i p q k =>
    lrelu P.leak (batchNormNum batchNormTrainDefault P.bn2 h3c i p q k)
  let h4c := conv2dNum (hp.dim_df * 8) P.w4 P.b4 h3
  let h4 := fun i p q k =>
    lrelu P.leak (batchNormNum batchNormTrainDefault P.bn3 h4c i p q k)
  fun i n =>
    let pq := splitIdx n
    let qk := splitIdx pq.2
    h4 i pq.1 qk.1 qk.2

/-- `DCGAN.discriminator`, numeric projection: the flattened convolution
pipeline followed by the affine projection `d_out` to one scalar per sample
(`model.py` lines 150-152); no final activation is applied. -/
def discriminatorNum (hp : HP) (P : DiscParams hp)
    (images : Tensor4 hp.batch_size hp.image_size hp.image_size hp.dim_color) :
    Fin hp.batch_size → ℝ :=
  linearScalarNum (discFlat hp P images) P.wOut P.bOut

/-- Batch-normalization parameters that are identically zero. -/
def BNParams.zero (c : Nat) : BNParams c :=
  ⟨fun _ => 0, fun _ => 0, fun _ => 0, fun _ => 0, 0⟩

/-- Generator parameters that are identically zero. -/
def GenParams.zero (hp : HP) : GenParams hp :=
  ⟨fun _ _ => 0, fun _ => 0, BNParams.zero _,
   fun _ _ _ _ _ _ => 0, fun _ => 0, BNParams.zero _,
   fun _ _ _ _ _ _ => 0, fun _ => 0, BNParams.zero _,
   fun _ _ _ _ _ _ => 0, fun _ => 0, BNParams.zero _,
   fun _ _ _ _ _ _ => 0, fun _ => 0⟩

/-- Discriminator parameters that are identically zero except for the final
bias, set to `y`. -/
def DiscParams.zeroWithBias (hp : HP) (y : ℝ) : DiscParams hp :=
  ⟨0, fun _ _ _ _ _ _ => 0, fun _ => 0,
   fun _ _ _ _ _ _ => 0, fun _ => 0, BNParams.zero _,
   fun _ _ _ _ _ _ => 0, fun _ => 0, BNParams.zero _,
   fun _ _ _ _ _ _ => 0, fun _ => 0, BNParams.zero _,
   fun _ => 0, y⟩

/-- A small valid hyperparameter tuple used by the witnesses:
batch_size=1, image_size=16, output_size=16 (divisible by 16), dim_color=1,
dim_z=1, dim_df=1, dim_gf=1. -/
def HPsmall : HP :=
  { batch_size := 1, image_size := 16, output_size := 16, dim_color := 1,
    dim_z := 1, dim_df := 1, dim_gf := 1 }

/-- The all-zero latent batch for `HPsmall`. -/
def zSmall : Mat HPsmall.batch_size HPsmall.dim_z := fun _ _ => 0

end

/-! ## Helper lemmas: success characterizations of the graph-trace ops -/

/-- Success of a bound `Except` computation factors through an intermediate
success. -/
theorem bind_ok {α β : Type} {a : Except String α} {f : α → Except String β} {c : β} :
    (a >>= f) = .ok c ↔ ∃ y, a = .ok y ∧ f y = .ok c := by
  cases a <;> simp [Bind.bind, Except.bind]

/-- `getVar` with `reuse=True` succeeds exactly on existing variables and
leaves the state unchanged. -/
theorem getVar_true_ok {st : GraphState} {n : String} {st' : GraphState} :
    getVar st n true = .ok st' ↔ n ∈ st.vars ∧ st' = st := by
  unfold getVar
  split <;> aesop

/-- `getVar` with `reuse=False` succeeds exactly on fresh variables and
appends the new variable. -/
theorem getVar_false_ok {st : GraphState} {n : String} {st' : GraphState} :
    getVar st n false = .ok st' ↔
      n ∉ st.vars ∧ st' = { st with vars := st.vars ++ [n] } := by
  unfold getVar
  split <;> aesop

/-- Success characterization of `linearVars` under `reuse=True`. -/
theorem linearVars_true_ok {st st' : GraphState} {sc nm : String} :
    linearVars st sc nm true = .ok st' ↔
      (sc ++ "/" ++ nm ++ "/w") ∈ st.vars ∧ (sc ++ "/" ++ nm ++ "/b") ∈ st.vars ∧
        st' = st := by
  simp [linearVars, bind_ok, getVar_true_ok]
  aesop

/-- Success characterization of `linearVars` under `reuse=False`. -/
theorem linearVars_false_ok {st st' : GraphState} {sc nm : String} :
    linearVars st sc nm false = .ok st' ↔
      (sc ++ "/" ++ nm ++ "/w") ∉ st.vars ∧
      (sc ++ "/" ++ nm ++ "/b") ∉ st.vars ∧
      (sc ++ "/" ++ nm ++ "/b") ≠ (sc ++ "/" ++ nm ++ "/w") ∧
        st' = { st with vars := st.vars ++ [sc ++ "/" ++ nm ++ "/w", sc ++ "/" ++ nm ++ "/b"] } := by
  simp [linearVars, bind_ok, getVar_false_ok]
  aesop

/-- Success characterization of `conv2dVars` under `reuse=True`. -/
theorem conv2dVars_true_ok {st st' : GraphState} {sc nm : String} :
    conv2dVars st sc nm true = .ok st' ↔
      (sc ++ "/" ++ nm ++ "/w") ∈ st.vars ∧ (sc ++ "/" ++ nm ++ "/b") ∈ st.vars ∧
        st' = st := by
  simp [conv2dVars, bind_ok, getVar_true_ok]
  aesop

/-- Success characterization of `conv2dVars` under `reuse=False`. -/
theorem conv2dVars_false_ok {st st' : GraphState} {sc nm : String} :
    conv2dVars st sc nm false = .ok st' ↔
      (sc ++ "/" ++ nm ++ "/w") ∉ st.vars ∧
      (sc ++ "/" ++ nm ++ "/b") ∉ st.vars ∧
      (sc ++ "/" ++ nm ++ "/b") ≠ (sc ++ "/" ++ nm ++ "/w") ∧
        st' = { st with vars := st.vars ++ [sc ++ "/" ++ nm ++ "/w", sc ++ "/" ++ nm ++ "/b"] } := by
  simp [conv2dVars, bind_ok, getVar_false_ok]
  aesop

/-- Success characterization of `deconv2dVars` under `reuse=True`. -/
theorem deconv2dVars_true_ok {st st' : GraphState} {sc nm : String} :
    deconv2dVars st sc nm true = .ok st' ↔
      (sc ++ "/" ++ nm ++ "/w") ∈ st.vars ∧ (sc ++ "/" ++ nm ++ "/b") ∈ st.vars ∧
        st' = st := by
  simp [deconv2dVars, bind_ok, getVar_true_ok]
  aesop

/-- Success characterization of `deconv2dVars` under `reuse=False`. -/
theorem deconv2dVars_false_ok {st st' : GraphState} {sc nm : String} :
    deconv2dVars st sc nm false = .ok st' ↔
      (sc ++ "/" ++ nm ++ "/w") ∉ st.vars ∧
      (sc ++ "/" ++ nm ++ "/b") ∉ st.vars ∧
      (sc ++ "/" ++ nm ++ "/b") ≠ (sc ++ "/" ++ nm ++ "/w") ∧
        st' = { st with vars := st.vars ++ [sc ++ "/" ++ nm ++ "/w", sc ++ "/" ++ nm ++ "/b"] } := by
  simp [deconv2dVars, bind_ok, getVar_false_ok]
  aesop

/-- Success characterization of `batchNormApply` under `reuse=True`: the
state gains only the logged invocation. -/
theorem bnApply_true_ok {st st' : GraphState} {sc nm : String} {train : Bool} :
    batchNormApply st sc nm true train = .ok st' ↔
      (sc ++ "/" ++ nm ++ "/beta") ∈ st.vars ∧ (sc ++ "/" ++ nm ++ "/gamma") ∈ st.vars ∧
        st' = { st with bnCalls := st.bnCalls ++ [(sc ++ "/" ++ nm, train)] } := by
  simp [batchNormApply, bind_ok, getVar_true_ok]
  aesop

/-- Success characterization of `batchNormApply` under `reuse=False`. -/
theorem bnApply_false_ok {st st' : GraphState} {sc nm : String} {train : Bool} :
    batchNormApply st sc nm false train = .ok st' ↔
      (sc ++ "/" ++ nm ++ "/beta") ∉ st.vars ∧
      (sc ++ "/" ++ nm ++ "/gamma") ∉ st.vars ∧
      (sc ++ "/" ++ nm ++ "/gamma") ≠ (sc ++ "/" ++ nm ++ "/beta") ∧
        st' = { st with
                vars := st.vars ++ [sc ++ "/" ++ nm ++ "/beta", sc ++ "/" ++ nm ++ "/gamma"],
                bnCalls := st.bnCalls ++ [(sc ++ "/" ++ nm, train)] } := by
  simp [batchNormApply, bind_ok, getVar_false_ok]
  aesop

/-- A successful `reuse=True` generator invocation requires every generator
variable to exist already, allocates nothing, and logs its four batch-norm
invocations with `train=false`. -/
theorem genGraph_true_ok {st st' : GraphState} :
    generatorGraph st true = .ok st' ↔
      (∀ n ∈ genVarNames, n ∈ st.vars) ∧
        st' = { st with bnCalls := st.bnCalls ++ genBnTrace false } := by
  simp [generatorGraph, bind_ok, linearVars_true_ok, bnApply_true_ok,
        deconv2dVars_true_ok, genVarNames, genBnTrace]
  aesop

/-- A successful `reuse=False` generator invocation requires every generator
variable to be fresh, creates exactly the generator variables in order, and
logs its four batch-norm invocations with `train=true`. -/
theorem genGraph_false_ok {st st' : GraphState} :
    generatorGraph st false = .ok st' ↔
      (∀ n ∈ genVarNames, n ∉ st.vars) ∧
        st' = { st with vars := st.vars ++ genVarNames,
                        bnCalls := st.bnCalls ++ genBnTrace true } := by
  simp [generatorGraph, bind_ok, linearVars_false_ok, bnApply_false_ok,
        deconv2dVars_false_ok, genVarNames, genBnTrace]
  aesop

/-- A successful `reuse=True` discriminator invocation requires every
discriminator variable to exist already, allocates nothing, and logs its
three batch-norm invocations with the default `train` flag. -/
theorem discGraph_true_ok {st st' : GraphState} :
    discriminatorGraph st true = .ok st' ↔
      (∀ n ∈ discVarNames, n ∈ st.vars) ∧
        st' = { st with bnCalls := st.bnCalls ++ discBnTrace } := by
  simp [discriminatorGraph, bind_ok, linearVars_true_ok, bnApply_true_ok,
        conv2dVars_true_ok, discVarNames, discBnTrace, batchNormTrainDefault]
  aesop

/-- A successful `reuse=False` discriminator invocation requires every
discriminator variable to be fresh, creates exactly the discriminator
variables in order, and logs its three batch-norm invocations with the
default `train` flag. -/
theorem discGraph_false_ok {st st' : GraphState} :
    discriminatorGraph st false = .ok st' ↔
      (∀ n ∈ discVarNames, n ∉ st.vars) ∧
        st' = { st with vars := st.vars ++ discVarNames,
                        bnCalls := st.bnCalls ++ discBnTrace } := by
  simp [discriminatorGraph, bind_ok, linearVars_false_ok, bnApply_false_ok,
        conv2dVars_false_ok, discVarNames, discBnTrace, batchNormTrainDefault]
  aesop

/-! ## Helper lemmas: analysis -/

/-- The hyperbolic tangent is bounded by one in absolute value. -/
theorem abs_tanh_le_one (x : ℝ) : |Real.tanh x| ≤ 1 := by
  rw [Real.tanh_eq_sinh_div_cosh, abs_div, abs_of_pos (Real.cosh_pos x),
      div_le_one (Real.cosh_pos x), abs_le]
  constructor
  · have h : Real.sinh (-x) < Real.cosh (-x) := Real.sinh_lt_cosh (-x)
    rw [Real.sinh_neg, Real.cosh_neg] at h
    linarith
  · exact le_of_lt (Real.sinh_lt_cosh x)

/-- TensorFlow's numerically-stable closed form of the sigmoid
cross-entropy equals the textbook cross-entropy of the sigmoid. -/
theorem sce_eq_crossEntropy (x z : ℝ) :
    sigmoidCrossEntropyWithLogits x z = crossEntropy x z := by
  have hE : (0:ℝ) < Real.exp (-x) := Real.exp_pos _
  have h1E : (0:ℝ) < 1 + Real.exp (-x) := by linarith
  have hlog1 : Real.log (sigmoid x) = -Real.log (1 + Real.exp (-x)) := by
    rw [sigmoid, Real.log_inv]
  have hs : 1 - sigmoid x = Real.exp (-x) * (1 + Real.exp (-x))⁻¹ := by
    rw [sigmoid]
    field_simp
  have hlog2 : Real.log (1 - sigmoid x) = -x - Real.log (1 + Real.exp (-x)) := by
    rw [hs, Real.log_mul (ne_of_gt hE) (inv_ne_zero (ne_of_gt h1E)),
        Real.log_exp, Real.log_inv]
    ring
  unfold sigmoidCrossEntropyWithLogits crossEntropy
  rw [hlog1, hlog2]
  rcases le_or_lt 0 x with hx | hx
  · rw [abs_of_nonneg hx, max_eq_left hx]
    ring
  · rw [abs_of_neg hx, max_eq_right (le_of_lt hx), neg_neg]
    have hsplit : (1:ℝ) + Real.exp x = Real.exp x * (1 + Real.exp (-x)) := by
      rw [mul_add, mul_one, ← Real.exp_add]
      simp [add_comm]
    rw [hsplit, Real.log_mul (ne_of_gt (Real.exp_pos x)) (ne_of_gt h1E), Real.log_exp]
    ring

/-- Sigmoid cross-entropy is non-negative for any logit and any target in
`[0, 1]`. -/
theorem sce_nonneg {x z : ℝ} (hz0 : 0 ≤ z) (hz1 : z ≤ 1) :
    0 ≤ sigmoidCrossEntropyWithLogits x z := by
  unfold sigmoidCrossEntropyWithLogits
  have hlog : 0 ≤ Real.log (1 + Real.exp (-|x|)) := by
    apply Real.log_nonneg
    have := Real.exp_pos (-|x|)
    linarith
  have hmax : x * z ≤ max x 0 := by
    rcases le_or_lt 0 x with hx | hx
    · have : x * z ≤ x * 1 := mul_le_mul_of_nonneg_left hz1 hx
      rw [mul_one] at this
      exact this.trans (le_max_left x 0)
    · have : x * z ≤ 0 := mul_nonpos_of_nonpos_of_nonneg (le_of_lt hx) hz0
      exact this.trans (le_max_right x 0)
  linarith

/-- The mean of a non-negative vector is non-negative (also for the empty
vector, where the mean is `0/0 = 0`). -/
theorem reduceMean_nonneg {n : Nat} {v : Fin n → ℝ} (h : ∀ i, 0 ≤ v i) :
    0 ≤ reduceMean v :=
  div_nonneg (Finset.sum_nonneg fun i _ => h i) (Nat.cast_nonneg n)

/-- A successful static deconvolution always pins the output batch
dimension to the declared one. -/
theorem deconv2dShapeInfer_ok_batch {x : Shape4} {b hh ww cc : Nat} {out : Shape4}
    (h : deconv2dShapeInfer x b hh ww cc = .ok out) : out.batch = some b := by
  unfold deconv2dShapeInfer at h
  repeat' split at h
  all_goals first | (cases h; rfl) | simp_all

/-! ## The claims -/

/-- Claim C1, counterexample.  The claim says every `reuse=true`
discriminator invocation runs its batch-normalization layers in
non-training mode.  In the code, the discriminator's batch-norm call sites
pass no `train` argument at all, so on the concrete run "fresh invocation,
then `reuse=true` invocation" the three batch-norm invocations of the
reused call carry the default training flag, not `train=false`. -/
theorem C1_counterexample :
    discriminatorGraph GraphState.empty false = .ok dState1 ∧
    discriminatorGraph dState1 true = .ok dState2 ∧
    ¬ (∀ e ∈ dState2.bnCalls.drop dState1.bnCalls.length, e.2 = false) := by
  decide

/-- Claim C1, amended.  A `reuse=true` discriminator invocation binds the
already-created parameters (it requires every discriminator variable to
exist and allocates nothing), but its batch-normalization layers run with
the library-default `train` flag (training mode) regardless of `reuse` —
unlike the generator, which couples the flag to `reuse`. -/
theorem C1_discriminator_reuse :
    ∀ st st' : GraphState,
      discriminatorGraph st true = .ok st' →
        st'.vars = st.vars ∧ (∀ n ∈ discVarNames, n ∈ st.vars) ∧
        st'.bnCalls = st.bnCalls ++ discBnTrace ∧
        ∀ e ∈ discBnTrace, e.2 = batchNormTrainDefault := by
  intro st st' h
  rw [discGraph_true_ok] at h
  obtain ⟨hmem, rfl⟩ := h
  exact ⟨rfl, hmem, rfl, by decide⟩

/-- Witness for `C1_discriminator_reuse` at the concrete post-first-call
state. -/
theorem C1_discriminator_reuse_witness :
    discriminatorGraph dState1 true = .ok dState2 ∧
      (dState2.vars = dState1.vars ∧ (∀ n ∈ discVarNames, n ∈ dState1.vars) ∧
       dState2.bnCalls = dState1.bnCalls ++ discBnTrace ∧
       ∀ e ∈ discBnTrace, e.2 = batchNormTrainDefault) :=
  ⟨by decide, C1_discriminator_reuse dState1 dState2 (by decide)⟩

/-- Claim C2.  After `build_model`, the discriminator partition and the
generator partition of the trainable variables are each contained in the
full trainable list, jointly cover it, and are disjoint.  The variable
names in `model.py` are string literals, so the trace — and with it this
partition property — is the same for every hyperparameter configuration. -/
theorem C2_partition : ∀ _hp : HP,
    buildModelGraph = .ok buildState ∧
    (∀ v ∈ t_vars buildState, v ∈ d_vars buildState ∨ v ∈ g_vars buildState) ∧
    (∀ v ∈ d_vars buildState, v ∈ t_vars buildState) ∧
    (∀ v ∈ g_vars buildState, v ∈ t_vars buildState) ∧
    (∀ v ∈ d_vars buildState, v ∉ g_vars buildState) := by
  intro _hp
  decide

/-- Claim C3.  For every hyperparameter tuple with `output_size` divisible
by 16, every parameter assignment, every reuse flag and every latent batch
of shape `(batch_size, dim_z)`, the generator's output — which by its type
has shape `(batch_size, output_size, output_size, dim_color)` — lies in
`[-1, 1]` at every coordinate. -/
theorem C3_generator_range (hp : HP) (reuse : Bool) (P : GenParams hp)
    (z : Mat hp.batch_size hp.dim_z) (_h16 : 16 ∣ hp.output_size) :
    ∀ (i : Fin hp.batch_size) (p q : Fin hp.output_size) (k : Fin hp.dim_color),
      -1 ≤ generatorNum hp reuse P z i p q k ∧ generatorNum hp reuse P z i p q k ≤ 1 := by
  intro i p q k
  have h := abs_tanh_le_one (genPreTanh hp reuse P z i p q k)
  rw [abs_le] at h
  simp only [generatorNum]
  exact ⟨h.1, h.2⟩

/-- Witness for `C3_generator_range` at a small valid configuration. -/
theorem C3_generator_range_witness :
    (16 ∣ HPsmall.output_size) ∧
      (-1 ≤ generatorNum HPsmall false (GenParams.zero HPsmall) zSmall
              ⟨0, by decide⟩ ⟨0, by decide⟩ ⟨0, by decide⟩ ⟨0, by decide⟩ ∧
        generatorNum HPsmall false (GenParams.zero HPsmall) zSmall
              ⟨0, by decide⟩ ⟨0, by decide⟩ ⟨0, by decide⟩ ⟨0, by decide⟩ ≤ 1) :=
  ⟨by decide, C3_generator_range HPsmall false (GenParams.zero HPsmall) zSmall (by decide)
      ⟨0, by decide⟩ ⟨0, by decide⟩ ⟨0, by decide⟩ ⟨0, by decide⟩⟩

/-- Claim C4.  The discriminator returns one scalar per sample — by its
type, shape `(batch_size,)` — and the value is an unbounded logit with no
final activation: for every target value `y` there are parameters making
every output equal `y`, for every input batch. -/
theorem C4_discriminator_scalar_unbounded (hp : HP) (y : ℝ) :
    ∃ P : DiscParams hp,
      ∀ (images : Tensor4 hp.batch_size hp.image_size hp.image_size hp.dim_color)
        (i : Fin hp.batch_size), discriminatorNum hp P images i = y := by
  refine ⟨DiscParams.zeroWithBias hp y, fun images i => ?_⟩
  simp [discriminatorNum, linearScalarNum, DiscParams.zeroWithBias]

/-- Claim C5.  The discriminator loss of `build_model` is the sum of the
mean sigmoid cross-entropy of the real-image logits against an all-ones
target and that of the fake-image logits against an all-zeros target, and
the generator loss is the mean sigmoid cross-entropy of the fake-image
logits against an all-ones target — with cross-entropy in its textbook
form. -/
theorem C5_loss_formulation {n : Nat} (logits_real logits_fake : Fin n → ℝ) :
    d_loss logits_real logits_fake =
      meanCrossEntropy logits_real 1 + meanCrossEntropy logits_fake 0 ∧
    g_loss logits_fake = meanCrossEntropy logits_fake 1 := by
  constructor <;>
    simp [d_loss, d_loss_real, d_loss_fake, g_loss, meanCrossEntropy,
          onesLike, zerosLike, sce_eq_crossEntropy]

/-- Claim C6.  Both losses of `build_model` are non-negative for every
input batch of real-valued logits. -/
theorem C6_loss_nonneg {n : Nat} (logits_real logits_fake : Fin n → ℝ) :
    0 ≤ d_loss logits_real logits_fake ∧ 0 ≤ g_loss logits_fake := by
  have h1 : 0 ≤ d_loss_real logits_real := by
    unfold d_loss_real onesLike
    exact reduceMean_nonneg fun i => sce_nonneg zero_le_one le_rfl
  have h2 : 0 ≤ d_loss_fake logits_fake := by
    unfold d_loss_fake zerosLike
    exact reduceMean_nonneg fun i => sce_nonneg le_rfl zero_le_one
  have h3 : 0 ≤ g_loss logits_fake := by
    unfold g_loss onesLike
    exact reduceMean_nonneg fun i => sce_nonneg zero_le_one le_rfl
  exact ⟨by unfold d_loss; linarith, h3⟩

/-- Claim C7.  One flag controls both generator behaviors: a successful
invocation logs all four batch-norm calls with `train = not reuse`; with
`reuse=true` it allocates nothing and requires every generator parameter to
exist already (binding); with `reuse=false` it requires them fresh and
creates exactly the generator parameters. -/
theorem C7_generator_reuse :
    ∀ (reuse : Bool) (st st' : GraphState),
      generatorGraph st reuse = .ok st' →
        st'.bnCalls = st.bnCalls ++ genBnTrace (!reuse) ∧
        (reuse = true → st'.vars = st.vars ∧ ∀ n ∈ genVarNames, n ∈ st.vars) ∧
        (reuse = false → (∀ n ∈ genVarNames, n ∉ st.vars) ∧
          st'.vars = st.vars ++ genVarNames) := by
  intro reuse st st' h
  cases reuse
  · rw [genGraph_false_ok] at h
    obtain ⟨hfresh, rfl⟩ := h
    exact ⟨by simp, by simp, fun _ => ⟨hfresh, by simp⟩⟩
  · rw [genGraph_true_ok] at h
    obtain ⟨hmem, rfl⟩ := h
    exact ⟨by simp, fun _ => ⟨rfl, hmem⟩, by simp⟩

/-- Witness for `C7_generator_reuse` at the fresh invocation on the empty
graph. -/
theorem C7_generator_reuse_witness :
    generatorGraph GraphState.empty false = .ok gState1 ∧
      (gState1.bnCalls = GraphState.empty.bnCalls ++ genBnTrace (!false) ∧
       (false = true → gState1.vars = GraphState.empty.vars ∧
         ∀ n ∈ genVarNames, n ∈ GraphState.empty.vars) ∧
       (false = false → (∀ n ∈ genVarNames, n ∉ GraphState.empty.vars) ∧
         gState1.vars = GraphState.empty.vars ++ genVarNames)) :=
  ⟨by decide, C7_generator_reuse false GraphState.empty gState1 (by decide)⟩

/-- Claim C8, counterexample.  The claim says `batch_size` is the leading
dimension of *every* placeholder and declared tensor shape; but the
latent-vector placeholder `input_for_generator` is declared with an
unconstrained (`None`) leading dimension, which differs from
`DDim.fixed batch_size` — shown here at the default hyperparameters. -/
theorem C8_counterexample :
    (buildModelShapeDecls HP.default).lookup "input_for_generator" =
      some [DDim.unconstrained, DDim.fixed 100] ∧
    ∃ p ∈ buildModelShapeDecls HP.default,
      p.2.head? ≠ some (DDim.fixed HP.default.batch_size) := by
  decide

/-- Claim C8, amended.  For every hyperparameter configuration, the
real-image placeholder declares `batch_size` as its leading dimension and
so does every other explicitly declared shape, *except* the latent-vector
placeholder (leading dimension `None`) and the generator's reshape
(leading dimension `-1`, inferred). -/
theorem C8_amended (hp : HP) :
    (buildModelShapeDecls hp).lookup "images" =
      some [DDim.fixed hp.batch_size, DDim.fixed hp.image_size,
            DDim.fixed hp.image_size, DDim.fixed hp.dim_color] ∧
    (buildModelShapeDecls hp).lookup "input_for_generator" =
      some [DDim.unconstrained, DDim.fixed hp.dim_z] ∧
    ∀ p ∈ buildModelShapeDecls hp,
      p.1 = "input_for_generator" ∨ p.1 = "generator/reshape" ∨
        p.2.head? = some (DDim.fixed hp.batch_size) := by
  refine ⟨rfl, rfl, ?_⟩
  intro p hmem
  simp [buildModelShapeDecls, placeholderShapeDecls, generatorShapeDecls,
        discriminatorShapeDecls] at hmem
  rcases hmem with rfl | rfl | rfl | rfl | rfl | rfl | rfl | rfl | rfl | rfl | rfl | rfl | rfl | rfl <;> simp

/-- Claim C9.  The generator's four spatial sizes are computed with
truncating integer division, so under the divisibility-by-16 precondition
each is exact, and the projection length equals
`(output_size/16)² · 8 · dim_gf`. -/
theorem C9_division (hp : HP) (h : 16 ∣ hp.output_size) :
    (genSpatialSizes hp.output_size).1 * 2 = hp.output_size ∧
    (genSpatialSizes hp.output_size).2.1 * 4 = hp.output_size ∧
    (genSpatialSizes hp.output_size).2.2.1 * 8 = hp.output_size ∧
    (genSpatialSizes hp.output_size).2.2.2 * 16 = hp.output_size ∧
    genProjLen hp = (hp.output_size / 16) ^ 2 * 8 * hp.dim_gf := by
  obtain ⟨k, hk⟩ := h
  simp only [genSpatialSizes]
  refine ⟨Nat.div_mul_cancel ⟨8 * k, by omega⟩,
          Nat.div_mul_cancel ⟨4 * k, by omega⟩,
          Nat.div_mul_cancel ⟨2 * k, by omega⟩,
          Nat.div_mul_cancel ⟨k, by omega⟩, ?_⟩
  unfold genProjLen
  ring

/-- Witness for `C9_division` at the default hyperparameters. -/
theorem C9_division_witness :
    (16 ∣ HP.default.output_size) ∧
      ((genSpatialSizes HP.default.output_size).1 * 2 = HP.default.output_size ∧
       (genSpatialSizes HP.default.output_size).2.1 * 4 = HP.default.output_size ∧
       (genSpatialSizes HP.default.output_size).2.2.1 * 8 = HP.default.output_size ∧
       (genSpatialSizes HP.default.output_size).2.2.2 * 16 = HP.default.output_size ∧
       genProjLen HP.default = (HP.default.output_size / 16) ^ 2 * 8 * HP.default.dim_gf) :=
  ⟨by decide, C9_division HP.default (by decide)⟩

/-- Claim C10.  Static shape inference through the generator always pins a
successful output's batch dimension to the configured `batch_size`
(every `deconv2d` stage declares it), and a latent input with a known batch
count different from `batch_size` makes the inference fail with a
construction-time shape error instead of producing a differently-sized
batch. -/
theorem C10_output_batch_pinned (hp : HP) :
    (∀ (n : SDim) (out : Shape4), generatorShapeInfer hp n = .ok out →
        out.batch = some hp.batch_size) ∧
    (∀ k : Nat, k ≠ hp.batch_size →
        ∃ e, generatorShapeInfer hp (some k) = .error e) := by
  constructor
  · intro n out h
    unfold generatorShapeInfer at h
    rw [bind_ok] at h; obtain ⟨s1, _, h⟩ := h
    rw [bind_ok] at h; obtain ⟨s2, _, h⟩ := h
    rw [bind_ok] at h; obtain ⟨s3, _, h⟩ := h
    rw [bind_ok] at h; obtain ⟨s4, _, h⟩ := h
    exact deconv2dShapeInfer_ok_batch h
  · intro k hk
    rcases Nat.eq_zero_or_pos
        (hp.output_size / 16 * (hp.output_size / 16) * (hp.dim_gf * 8)) with hvol | hvol
    · refine ⟨"reshape: cannot infer dimension", ?_⟩
      simp only [generatorShapeInfer]
      unfold reshapeInfer
      dsimp only
      rw [if_pos hvol]
      simp [Bind.bind, Except.bind]
    · refine ⟨"deconv2d: batch dimension mismatch", ?_⟩
      have hdvd : hp.output_size / 16 * (hp.output_size / 16) * (hp.dim_gf * 8) ∣
          k * (hp.output_size / 16 * (hp.output_size / 16) * hp.dim_gf * 8) :=
        ⟨k, by ring⟩
      have hq : k * (hp.output_size / 16 * (hp.output_size / 16) * hp.dim_gf * 8) /
          (hp.output_size / 16 * (hp.output_size / 16) * (hp.dim_gf * 8)) = k := by
        have hh : k * (hp.output_size / 16 * (hp.output_size / 16) * hp.dim_gf * 8) =
            hp.output_size / 16 * (hp.output_size / 16) * (hp.dim_gf * 8) * k := by ring
        rw [hh, Nat.mul_div_cancel_left k hvol]
      have hre : reshapeInfer (some k)
          (hp.output_size / 16 * (hp.output_size / 16) * hp.dim_gf * 8)
          (hp.output_size / 16) (hp.output_size / 16) (hp.dim_gf * 8) =
          .ok ⟨some k, hp.output_size / 16, hp.output_size / 16, hp.dim_gf * 8⟩ := by
        unfold reshapeInfer
        dsimp only
        rw [if_neg (by omega), if_pos hdvd, hq]
      simp only [generatorShapeInfer]
      rw [hre]
      simp only [Bind.bind, Except.bind]
      unfold deconv2dShapeInfer
      simp only []
      rw [if_neg hk]

/-- Witness for `C10_output_batch_pinned` at the default hyperparameters:
an unknown input batch infers output batch 100, and a known batch of 7
latent vectors is a construction-time error. -/
theorem C10_output_batch_pinned_witness :
    (generatorShapeInfer HP.default none = .ok ⟨some 100, 64, 64, 3⟩ ∧
      (⟨some 100, 64, 64, 3⟩ : Shape4).batch = some HP.default.batch_size) ∧
    ((7 : Nat) ≠ HP.default.batch_size ∧
      ∃ e, generatorShapeInfer HP.default (some 7) = .error e) :=
  ⟨⟨by decide, (C10_output_batch_pinned HP.default).1 none ⟨some 100, 64, 64, 3⟩ (by decide)⟩,
   ⟨by decide, (C10_output_batch_pinned HP.default).2 7 (by decide)⟩⟩
